import Mathlib

/-!
Verification of the OmniTech customer-support RAG agent
(`rag_agent.py` and `minimal_app/rag_agent_minimal.py`).

The development shallowly embeds the orchestration layer: Python dict/list
values become the `PyVal` family, Python exceptions become `Except String`,
the MCP transport and the HuggingFace backend become oracle fields of an
environment record, and `json.loads` becomes the executable `jsonLoads`
parser below.  JSON numbers are modelled as exact scaled decimals
`m / 10 ^ s` (the source never performs arithmetic on parsed numbers, so
this is faithful for the equality checks it does perform).
-/

namespace OmniTech

/-! ### Basic character and list utilities -/

/-- Opening curly brace character (written via its code point). -/
def lbrace : Char := Char.ofNat 123

/-- Closing curly brace character. -/
def rbrace : Char := Char.ofNat 125

/-- Apostrophe character. -/
def apos : Char := Char.ofNat 39

/-- Apostrophe as a one-character string. -/
def aposS : String := String.mk [apos]

/-- Lower-case a character list (models `str.lower()` on the ASCII inputs used). -/
def lowerL (cs : List Char) : List Char := cs.map Char.toLower

/-- Prefix test: `isPrefixL needle hay` is true when `needle` is a prefix of `hay`. -/
def isPrefixL : List Char → List Char → Bool
  | [], _ => true
  | _ :: _, [] => false
  | c :: cs, d :: ds => c == d && isPrefixL cs ds

/-- Substring test: `containsSub hay needle` models Python `needle in hay` on strings
(substring containment). -/
def containsSub : List Char → List Char → Bool
  | [], needle => needle.isEmpty
  | c :: t, needle => isPrefixL needle (c :: t) || containsSub t needle

/-- Last `n` elements of a list, in order; models Python `l[-n:]`. -/
def lastN (n : ℕ) {α : Type} (l : List α) : List α := l.drop (l.length - n)

/-! ### Python values

Python dictionaries and lists are mutually inductive with values so that
all recursions stay structural (and hence kernel-computable). -/

mutual
/-- A Python value as it occurs in the agent pipeline: JSON-decodable data
plus an opaque-object constructor for raw protocol objects. `float m s`
denotes the decimal `m / 10 ^ s`. -/
inductive PyVal where
  | str (s : String)
  | intv (n : ℤ)
  | float (m : ℤ) (s : ℕ)
  | boolv (b : Bool)
  | null
  | list (xs : PyList)
  | dict (kvs : PyDict)
  | pyobj (tag : String)

/-- A Python list of `PyVal`s. -/
inductive PyList where
  | nil
  | cons (hd : PyVal) (tl : PyList)

/-- A Python dict with string keys, in insertion order. -/
inductive PyDict where
  | nil
  | cons (k : String) (v : PyVal) (tl : PyDict)
end

/-- Build a `PyList` from a Lean list. -/
def pyListOf : List PyVal → PyList
  | [] => .nil
  | x :: xs => .cons x (pyListOf xs)

/-- Convert a `PyList` to a Lean list. -/
def toListV : PyList → List PyVal
  | .nil => []
  | .cons x xs => x :: toListV xs

/-- Build a `PyDict` from an association list (keys assumed distinct). -/
def pyDictOf : List (String × PyVal) → PyDict
  | [] => .nil
  | (k, v) :: t => .cons k v (pyDictOf t)

namespace PyDict

/-- Key lookup; dict keys are unique so first match is the value. -/
def lookup : PyDict → String → Option PyVal
  | .nil, _ => Option.none
  | .cons k v t, key => if k == key then some v else lookup t key

/-- Key membership test (`key in d`). -/
def hasKey : PyDict → String → Bool
  | .nil, _ => false
  | .cons k _ t, key => k == key || hasKey t key

/-- Item assignment `d[key] = v`: overwrite in place, else append
(matches CPython insertion-order semantics). -/
def set : PyDict → String → PyVal → PyDict
  | .nil, key, v => .cons key v .nil
  | .cons k w t, key, v => if k == key then .cons k v t else .cons k w (set t key v)

/-- Number of entries. -/
def length : PyDict → ℕ
  | .nil => 0
  | .cons _ _ t => length t + 1

end PyDict

namespace PyList

/-- Number of elements. -/
def length : PyList → ℕ
  | .nil => 0
  | .cons _ t => length t + 1

/-- Emptiness test. -/
def isEmpty : PyList → Bool
  | .nil => true
  | .cons _ _ => false

end PyList

/-- The field of a dict-shaped result, `Option.none` for non-dicts or
missing keys.  Used to state theorems about returned `AgentResult`s. -/
def resultField (v : PyVal) (k : String) : Option PyVal :=
  match v with
  | .dict d => d.lookup k
  | _ => Option.none

/-! ### Python runtime semantics helpers (each may raise, modelled by
`Except String`) -/

/-- Python truthiness of a value. -/
def pyTruthy : PyVal → Bool
  | .str s => !s.isEmpty
  | .intv n => n != 0
  | .float m _ => m != 0
  | .boolv b => b
  | .null => false
  | .list xs => !xs.isEmpty
  | .dict d => !(d.length == 0)
  | .pyobj _ => true

/-- Equality `v == some-string` in Python: only a `str` can equal a string. -/
def pyEqStr (v : PyVal) (s : String) : Bool :=
  match v with
  | .str t => t == s
  | _ => false

/-- Method `d.get(key, default)`; raises `AttributeError` on non-dicts. -/
def pyGet (v : PyVal) (k : String) (dflt : PyVal) : Except String PyVal :=
  match v with
  | .dict d => .ok ((d.lookup k).getD dflt)
  | _ => .error "AttributeError: object has no attribute get"

/-- Subscripting `v[key]` with a string key. -/
def pySubscript (v : PyVal) (k : String) : Except String PyVal :=
  match v with
  | .dict d =>
    match d.lookup k with
    | some x => .ok x
    | Option.none => .error ("KeyError: " ++ k)
  | .str _ => .error "TypeError: string indices must be integers"
  | .list _ => .error "TypeError: list indices must be integers"
  | _ => .error "TypeError: object is not subscriptable"

/-- Membership `needle in v` for a string needle. -/
def pyContains (needle : String) (v : PyVal) : Except String Bool :=
  match v with
  | .dict d => .ok (d.hasKey needle)
  | .str s => .ok (containsSub s.data needle.data)
  | .list xs => .ok (go (toListV xs))
  | _ => .error "TypeError: argument of type is not iterable"
where
  go : List PyVal → Bool
    | [] => false
    | x :: t => pyEqStr x needle || go t

/-- Python `len(v)`. -/
def pyLen (v : PyVal) : Except String ℕ :=
  match v with
  | .str s => .ok s.length
  | .list xs => .ok xs.length
  | .dict d => .ok d.length
  | _ => .error "TypeError: object has no len"

/-- Slice `v[:n]`. -/
def pySlice (v : PyVal) (n : ℕ) : Except String PyVal :=
  match v with
  | .str s => .ok (.str (String.mk (s.data.take n)))
  | .list xs => .ok (.list (pyListOf ((toListV xs).take n)))
  | _ => .error "TypeError: object is not subscriptable"

/-- Item assignment `v[key] = x`. -/
def pySetItem (v : PyVal) (k : String) (x : PyVal) : Except String PyVal :=
  match v with
  | .dict d => .ok (.dict (d.set k x))
  | _ => .error "TypeError: object does not support item assignment"

/-! ### Python `repr`/`str` of values -/

/-- Escape the body of a Python string repr for one quote character. -/
def reprEscape (q : Char) : List Char → List Char
  | [] => []
  | c :: t =>
    if c == '\\' then '\\' :: '\\' :: reprEscape q t
    else if c == '\n' then '\\' :: 'n' :: reprEscape q t
    else if c == '\r' then '\\' :: 'r' :: reprEscape q t
    else if c == '\t' then '\\' :: 't' :: reprEscape q t
    else if c == q then '\\' :: c :: reprEscape q t
    else c :: reprEscape q t

/-- Python `repr` of a string (single quotes unless the text itself
contains one and no double quote). -/
def reprString (s : String) : String :=
  let q := if s.data.contains apos && !(s.data.contains '"') then '"' else apos
  String.mk (q :: reprEscape q s.data ++ [q])

/-- Strip factors of ten from a scaled decimal so reprs drop trailing
zeros, as float repr does. -/
def stripTens : ℤ → ℕ → ℤ × ℕ
  | m, 0 => (m, 0)
  | m, s + 1 => if m % 10 == 0 && m != 0 then stripTens (m / 10) s else (m, s + 1)

/-- Pad a natural number with leading zeros to `w` digits. -/
def padZeros (w : ℕ) (n : ℕ) : String :=
  let d := toString n
  String.mk (List.replicate (w - d.length) '0') ++ d

/-- Repr of the float `m / 10 ^ s`. -/
def floatRepr (m : ℤ) (s : ℕ) : String :=
  let (m, s) := stripTens m s
  if s == 0 then toString m ++ ".0"
  else
    let a := m.natAbs
    let sign := if m < 0 then "-" else ""
    sign ++ toString (a / 10 ^ s) ++ "." ++ padZeros s (a % 10 ^ s)

mutual
/-- Python `repr` of a value. -/
def pyRepr : PyVal → String
  | .str s => reprString s
  | .intv n => toString n
  | .float m s => floatRepr m s
  | .boolv b => if b then "True" else "False"
  | .null => "None"
  | .list xs => "[" ++ pyReprList xs ++ "]"
  | .dict d => "\x7b" ++ pyReprDict d ++ "\x7d"
  | .pyobj tag => "<" ++ tag ++ ">"

/-- Comma-separated reprs of list elements. -/
def pyReprList : PyList → String
  | .nil => ""
  | .cons x .nil => pyRepr x
  | .cons x t => pyRepr x ++ ", " ++ pyReprList t

/-- Comma-separated `key: value` reprs of dict entries. -/
def pyReprDict : PyDict → String
  | .nil => ""
  | .cons k v .nil => reprString k ++ ": " ++ pyRepr v
  | .cons k v t => reprString k ++ ": " ++ pyRepr v ++ ", " ++ pyReprDict t
end

/-- Python `str` of a value (as used by f-string interpolation). -/
def pyStrTop : PyVal → String
  | .str s => s
  | v => pyRepr v

/-! ### `json.loads`

A strict JSON parser over character lists, with explicit fuel so every
definition is structurally recursive and kernel-computable.  Failure
(`Option.none`) models `json.JSONDecodeError`. -/

/-- JSON whitespace. -/
def jsonWs (c : Char) : Bool := c == ' ' || c == '\t' || c == '\n' || c == '\r'

/-- Skip JSON whitespace. -/
def skipJsonWs (cs : List Char) : List Char := cs.dropWhile jsonWs

/-- Hexadecimal digit value. -/
def hexVal (c : Char) : Option ℕ :=
  if '0' ≤ c && c ≤ '9' then some (c.toNat - 48)
  else if 'a' ≤ c && c ≤ 'f' then some (c.toNat - 87)
  else if 'A' ≤ c && c ≤ 'F' then some (c.toNat - 55)
  else Option.none

/-- Parse the body of a JSON string after the opening quote. -/
def parseJStr (acc : List Char) : List Char → Option (String × List Char)
  | [] => Option.none
  | c :: rest =>
    if c == '"' then some (String.mk acc.reverse, rest)
    else if c == '\\' then
      match rest with
      | [] => Option.none
      | e :: rest2 =>
        if e == '"' then parseJStr ('"' :: acc) rest2
        else if e == '\\' then parseJStr ('\\' :: acc) rest2
        else if e == '/' then parseJStr ('/' :: acc) rest2
        else if e == 'b' then parseJStr (Char.ofNat 8 :: acc) rest2
        else if e == 'f' then parseJStr (Char.ofNat 12 :: acc) rest2
        else if e == 'n' then parseJStr ('\n' :: acc) rest2
        else if e == 'r' then parseJStr ('\r' :: acc) rest2
        else if e == 't' then parseJStr ('\t' :: acc) rest2
        else if e == 'u' then
          match rest2 with
          | h1 :: h2 :: h3 :: h4 :: rest3 =>
            match hexVal h1, hexVal h2, hexVal h3, hexVal h4 with
            | some a, some b, some c', some d =>
              parseJStr (Char.ofNat (((a * 16 + b) * 16 + c') * 16 + d) :: acc) rest3
            | _, _, _, _ => Option.none
          | _ => Option.none
        else Option.none
    else if c.toNat < 32 then Option.none
    else parseJStr (c :: acc) rest

/-- Digits to a natural number. -/
def digitsToNat (ds : List Char) : ℕ :=
  ds.foldl (fun n c => n * 10 + (c.toNat - 48)) 0

/-- Parse a JSON number (into an exact `intv` or scaled-decimal `float`). -/
def parseJNum (cs : List Char) : Option (PyVal × List Char) :=
  let (neg, cs1) :=
    match cs with
    | c :: t => if c == '-' then (true, t) else (false, cs)
    | [] => (false, cs)
  match cs1 with
  | [] => Option.none
  | c :: _ =>
    if !c.isDigit then Option.none
    else
      let (ipDigits, cs2) :=
        if c == '0' then ([c], cs1.drop 1)
        else (cs1.takeWhile Char.isDigit, cs1.dropWhile Char.isDigit)
      let ip : ℕ := digitsToNat ipDigits
      let (fracDigits, cs3, hasFrac) :=
        match cs2 with
        | d :: t =>
          if d == '.' then
            let fs := t.takeWhile Char.isDigit
            (fs, t.dropWhile Char.isDigit, true)
          else ([], cs2, false)
        | [] => ([], cs2, false)
      if hasFrac && fracDigits.isEmpty then Option.none
      else
        let (expSign, expDigits, cs4, hasExp) :=
          match cs3 with
          | e :: t =>
            if e == 'e' || e == 'E' then
              match t with
              | s :: t2 =>
                if s == '+' then (false, t2.takeWhile Char.isDigit, t2.dropWhile Char.isDigit, true)
                else if s == '-' then (true, t2.takeWhile Char.isDigit, t2.dropWhile Char.isDigit, true)
                else (false, t.takeWhile Char.isDigit, t.dropWhile Char.isDigit, true)
              | [] => (false, [], t, true)
            else (false, [], cs3, false)
          | [] => (false, [], cs3, false)
        if hasExp && expDigits.isEmpty then Option.none
        else
          let scale := fracDigits.length
          let mant : ℤ :=
            (if neg then -1 else 1) * ((ip * 10 ^ scale + digitsToNat fracDigits : ℕ) : ℤ)
          if !hasFrac && !hasExp then
            some (.intv mant, cs2)
          else
            let e : ℕ := digitsToNat expDigits
            if expSign then some (.float mant (scale + e), cs4)
            else some (.float (mant * 10 ^ e) scale, cs4)

mutual
/-- Parse one JSON value. -/
def parseJVal : ℕ → List Char → Option (PyVal × List Char)
  | 0, _ => Option.none
  | fuel + 1, cs =>
    let cs := skipJsonWs cs
    match cs with
    | [] => Option.none
    | c :: rest =>
      if c == '"' then
        match parseJStr [] rest with
        | some (s, rest2) => some (.str s, rest2)
        | Option.none => Option.none
      else if c == lbrace then parseJObj fuel rest .nil true
      else if c == '[' then parseJArr fuel rest [] true
      else if isPrefixL "true".data cs then some (.boolv true, cs.drop 4)
      else if isPrefixL "false".data cs then some (.boolv false, cs.drop 5)
      else if isPrefixL "null".data cs then some (.null, cs.drop 4)
      else parseJNum cs

/-- Parse object members after `\x7b` (or after a comma); `first` marks
whether the closing brace may come immediately. -/
def parseJObj : ℕ → List Char → PyDict → Bool → Option (PyVal × List Char)
  | 0, _, _, _ => Option.none
  | fuel + 1, cs, acc, first =>
    let cs := skipJsonWs cs
    match cs with
    | [] => Option.none
    | c :: rest =>
      if c == rbrace && first then some (.dict acc, rest)
      else
        if c != '"' then Option.none
        else
          match parseJStr [] rest with
          | Option.none => Option.none
          | some (key, rest2) =>
            match skipJsonWs rest2 with
            | ':' :: rest3 =>
              match parseJVal fuel rest3 with
              | Option.none => Option.none
              | some (v, rest4) =>
                let acc := acc.set key v
                match skipJsonWs rest4 with
                | ',' :: rest5 => parseJObj fuel rest5 acc false
                | d :: rest5 =>
                  if d == rbrace then some (.dict acc, rest5) else Option.none
                | [] => Option.none
            | _ => Option.none

/-- Parse array elements after `[`. -/
def parseJArr : ℕ → List Char → List PyVal → Bool → Option (PyVal × List Char)
  | 0, _, _, _ => Option.none
  | fuel + 1, cs, acc, first =>
    let cs' := skipJsonWs cs
    match cs' with
    | [] => Option.none
    | c :: rest =>
      if c == ']' && first then some (.list (pyListOf acc.reverse), rest)
      else
        match parseJVal fuel cs' with
        | Option.none => Option.none
        | some (v, rest2) =>
          match skipJsonWs rest2 with
          | ',' :: rest3 => parseJArr fuel rest3 (v :: acc) false
          | ']' :: rest3 => some (.list (pyListOf (v :: acc).reverse), rest3)
          | _ => Option.none
end

/-- Model of `json.loads`: parse a complete document, rejecting trailing data. -/
def jsonLoads (s : String) : Option PyVal :=
  match parseJVal (s.length + 2) s.data with
  | some (v, rest) => if (skipJsonWs rest).isEmpty then some v else Option.none
  | Option.none => Option.none

/-! ### Routing (`is_support_query`, rag_agent.py lines 84-110) -/

/-- The fixed per-category support keyword sets (rag_agent.py lines 67-72). -/
def SUPPORT_KEYWORDS : List (String × List String) :=
  [("security", ["password", "reset", "2fa", "authentication", "hacked", "compromised", "login"]),
   ("device", ["device", "won" ++ aposS ++ "t turn", "frozen", "screen", "factory reset", "broken", "power"]),
   ("shipping", ["ship", "delivery", "track", "order", "arrive", "package"]),
   ("returns", ["return", "refund", "warranty", "exchange", "money back"])]

/-- Python regex word character (ASCII approximation of `\w`). -/
def isWordChar (c : Char) : Bool := c.isAlphanum || c == '_'

/-- Match of the regex `my \w+ (is|isn't|won't)` anchored at the current
position.  `\w+` is greedy but cannot match the mandatory following
space, so maximal-run matching is exact. -/
def myPatHere (cs : List Char) : Bool :=
  if isPrefixL "my ".data cs then
    let r := cs.drop 3
    let w := r.takeWhile isWordChar
    let r2 := r.drop w.length
    !w.isEmpty &&
      (match r2 with
       | c :: r3 =>
         c == ' ' &&
           (isPrefixL "is".data r3 || isPrefixL ("isn" ++ aposS ++ "t").data r3 ||
             isPrefixL ("won" ++ aposS ++ "t").data r3)
       | [] => false)
  else false

/-- Search of the my-something pattern: try each start position. -/
def myDevicePat : List Char → Bool
  | [] => false
  | c :: t => myPatHere (c :: t) || myDevicePat t

/-- A literal pattern: `re.search` of a regex with no metacharacters is
substring containment. -/
def litPat (p : String) (ql : List Char) : Bool := containsSub ql p.data

/-- The fixed help-seeking pattern set (rag_agent.py lines 95-104). -/
def support_patterns : List (List Char → Bool) :=
  [litPat "how do i", litPat "how can i", litPat "what should i", litPat "can you help",
   litPat "i need help", myDevicePat, litPat "problem with", litPat "issue with"]

/-- Routing predicate `is_support_query` (rag_agent.py lines 84-110): keyword containment on
the lowercased query, then the help-seeking patterns; any hit routes to
the classification workflow. -/
def is_support_query (q : String) : Bool :=
  let ql := lowerL q.data
  SUPPORT_KEYWORDS.any (fun ck => ck.2.any (fun kw => containsSub ql kw.data)) ||
    support_patterns.any (fun p => p ql)

/-! ### Generation clients (`query_llm`, rag_agent.py lines 208-249 and
rag_agent_minimal.py lines 109-157)

The HuggingFace backend is an oracle: either the generated text or the
stringified exception.  The fallback strings below are the literal
`json.dumps` outputs of the dict literals in the source. -/

/-- Backend oracle for one generation call. -/
structure LLMEnv where
  hasToken : Bool
  backend : Except String String

/-- Literal `json.dumps` output of the `KNOWLEDGE_BASE_ONLY` sentinel payload
(rag_agent.py lines 212-216 and 245-249). -/
def KNOWLEDGE_BASE_ONLY_JSON : String :=
  "\x7b\"response\": \"KNOWLEDGE_BASE_ONLY\", \"action_needed\": \"none\", \"confidence\": 0.7\x7d"

/-- Literal `json.dumps` output of the model-warming payload (rag_agent.py lines 239-243). -/
def WARMING_JSON : String :=
  "\x7b\"response\": \"The AI model is warming up. Please try again in a moment.\", \"action_needed\": \"none\", \"confidence\": 0.5\x7d"

/-- Warming-up detection: `"503" in error_msg or "loading" in error_msg.lower()`. -/
def llmErrorIsWarming (e : String) : Bool :=
  containsSub e.data "503".data || containsSub (lowerL e.data) "loading".data

/-- Generation client `OmniTechAgent.query_llm` (rag_agent.py lines 208-249).  The prompt is
forwarded to the backend oracle and does not influence the failure
payloads. -/
def query_llm (env : LLMEnv) (_prompt : String) : String :=
  if !env.hasToken then KNOWLEDGE_BASE_ONLY_JSON
  else
    match env.backend with
    | .ok text => text
    | .error e => if llmErrorIsWarming e then WARMING_JSON else KNOWLEDGE_BASE_ONLY_JSON

/-- Literal `json.dumps` output of the minimal agent's missing-token payload
(rag_agent_minimal.py lines 122-126). -/
def MIN_NO_TOKEN_JSON : String :=
  "\x7b\"response\": \"I found relevant information in our knowledge base. However, the AI model is not configured. Please set HF_TOKEN to get AI-generated responses.\", \"action_needed\": \"none\", \"confidence\": 0.5\x7d"

/-- Literal `json.dumps` output of the minimal agent's warming payload
(rag_agent_minimal.py lines 146-150). -/
def MIN_WARMING_JSON : String :=
  "\x7b\"response\": \"The AI model is warming up. Please try again in a moment (this can take 20-30 seconds for the first request).\", \"action_needed\": \"none\", \"confidence\": 0.5\x7d"

/-- Literal `json.dumps` output of the minimal agent's generic apology payload
(rag_agent_minimal.py lines 153-157). -/
def MIN_APOLOGY_JSON : String :=
  "\x7b\"response\": \"I encountered an error generating a response. Please try again.\", \"action_needed\": \"none\", \"confidence\": 0.3\x7d"

/-- Generation client `SyncAgent.query_llm` (rag_agent_minimal.py lines 109-157). -/
def query_llm_minimal (env : LLMEnv) (_prompt : String) : String :=
  if !env.hasToken then MIN_NO_TOKEN_JSON
  else
    match env.backend with
    | .ok text => text
    | .error e => if llmErrorIsWarming e then MIN_WARMING_JSON else MIN_APOLOGY_JSON

/-! ### Tool invoker (`call_tool`, rag_agent.py lines 176-204) -/

/-- Oracle data for one tool call: the `isoformat` timestamp recorded and
the measured duration in seconds as the scaled decimal `durM / 10 ^ durS`. -/
structure CallMeta where
  ts : String
  durM : ℤ
  durS : ℕ

/-- One entry of `mcp_calls_log`; `duration_ms` is kept as a scaled
decimal. -/
structure ToolCallRecord where
  timestamp : String
  tool : String
  arguments : PyVal
  duration_ms : ℤ × ℕ
  success : Bool

/-- Round an integer-divided quantity to the nearest integer, ties to
even (Python `round`). -/
def divRoundEven (m : ℤ) (d : ℤ) : ℤ :=
  let q := m / d
  let r := m % d
  if 2 * r < d then q
  else if 2 * r > d then q + 1
  else if q % 2 == 0 then q else q + 1

/-- Python `round(duration * 1000, 2)` on the scaled-decimal duration. -/
def durationMs (meta : CallMeta) : ℤ × ℕ :=
  if meta.durS ≤ 3 then (meta.durM * 10 ^ (3 - meta.durS), 0)
  else
    let s := meta.durS - 3
    if s ≤ 2 then (meta.durM, s)
    else (divRoundEven meta.durM (10 ^ (s - 2)), 2)

/-- Unwrapper `unwrap_mcp_result` (rag_agent.py lines 113-121): JSON-decode the
first text payload, fall back to the raw text; an empty content list
returns the raw protocol object. -/
def unwrap_mcp_result (contents : List String) : PyVal :=
  match contents with
  | [] => .pyobj "CallToolResult"
  | t :: _ =>
    match jsonLoads t with
    | some v => v
    | Option.none => .str t

/-- The success heuristic: `"error" not in str(parsed).lower()`. -/
def toolSuccess (parsed : PyVal) : Bool :=
  !containsSub (lowerL (pyStrTop parsed).data) "error".data

/-- The `ToolCallRecord` appended for a completed transport call. -/
def mkToolRecord (tool : String) (args : PyVal) (meta : CallMeta) (parsed : PyVal) :
    ToolCallRecord :=
  ⟨meta.ts, tool, args, durationMs meta, toolSuccess parsed⟩

/-- Append then trim to the last 20 records (rag_agent.py lines 189-198). -/
def logAppend (log : List ToolCallRecord) (r : ToolCallRecord) : List ToolCallRecord :=
  let l := log ++ [r]
  if 20 < l.length then lastN 20 l else l

/-- Tool invoker `OmniTechAgent.call_tool` (rag_agent.py lines 176-204).  `outcome` is
the transport oracle: the content texts of `session.call_tool`, or the
exception it raised.  With no session the method raises (the `raise` is
outside the `try`); a transport exception is caught and returned as an
`error` payload without logging. -/
def call_tool (sessionOk : Bool) (log : List ToolCallRecord) (tool : String) (args : PyVal)
    (outcome : Except String (List String)) (meta : CallMeta) :
    Except String (List ToolCallRecord × PyVal) :=
  if !sessionOk then .error "MCP session not initialized"
  else
    match outcome with
    | .error e => .ok (log, .dict (.cons "error" (.str e) .nil))
    | .ok contents =>
      let parsed := unwrap_mcp_result contents
      .ok (logAppend log (mkToolRecord tool args meta parsed), parsed)

/-- The parsed value a completed `call_tool` hands to the workflow. -/
def toolParsed (outcome : Except String (List String)) : PyVal :=
  match outcome with
  | .error e => .dict (.cons "error" (.str e) .nil)
  | .ok contents => unwrap_mcp_result contents

/-! ### Remaining Python primitives used by the workflows -/

/-- Render a non-negative hundredths count as `d.dd`. -/
def hundredthsStr (h : ℤ) : String :=
  let a := h.natAbs
  let sign := if h < 0 then "-" else ""
  sign ++ toString (a / 100) ++ "." ++ padZeros 2 (a % 100)

/-- Python `format(v, '.2f')` as used by the `confidence:.2f` f-string; numbers
(and bools, which are ints) format, everything else raises. -/
def fmt2f (v : PyVal) : Except String String :=
  match v with
  | .intv n => .ok (hundredthsStr (n * 100))
  | .float m s =>
    if s ≤ 2 then .ok (hundredthsStr (m * 10 ^ (2 - s)))
    else .ok (hundredthsStr (divRoundEven m (10 ^ (s - 2))))
  | .boolv b => .ok (if b then "1.00" else "0.00")
  | _ => .error "ValueError: Unknown format code f"

/-- Core of `str.format` restricted to the named fields `query` and
`knowledge` that the templates use; other replacement fields raise
`KeyError`/`IndexError` as in Python. -/
def formatFields (fuel : ℕ) (cs : List Char) (q : String) (kn : PyVal) (acc : List Char) :
    Except String String :=
  match fuel with
  | 0 => .error "ValueError: format recursion"
  | fuel + 1 =>
    match cs with
    | [] => .ok (String.mk acc.reverse)
    | c :: t =>
      if c == lbrace then
        match t with
        | [] => .error "ValueError: Single brace encountered"
        | d :: t2 =>
          if d == lbrace then formatFields fuel t2 q kn (lbrace :: acc)
          else
            let fld := t.takeWhile (fun x => x != rbrace)
            let rest := t.drop fld.length
            match rest with
            | _ :: t3 =>
              if fld.contains lbrace then .error "ValueError: unexpected brace in field name"
              else if fld.isEmpty then .error "IndexError: Replacement index 0 out of range"
              else if fld == "query".data then
                formatFields fuel t3 q kn (q.data.reverse ++ acc)
              else if fld == "knowledge".data then
                formatFields fuel t3 q kn ((pyStrTop kn).data.reverse ++ acc)
              else .error ("KeyError: " ++ String.mk fld)
            | [] => .error "ValueError: Single brace encountered"
      else if c == rbrace then
        match t with
        | d :: t2 =>
          if d == rbrace then formatFields fuel t2 q kn (rbrace :: acc)
          else .error "ValueError: Single brace encountered"
        | [] => .error "ValueError: Single brace encountered"
      else formatFields fuel t q kn (c :: acc)

/-- Python `template.format(query=query, knowledge=knowledge)`; non-strings have
no `format` attribute. -/
def pyFormatQK (template : PyVal) (q : String) (kn : PyVal) : Except String String :=
  match template with
  | .str t => formatFields (t.length + 1) t.data q kn []
  | _ => .error "AttributeError: object has no attribute format"

/-- Truncation `s[:500]` used by the parse fallbacks. -/
def truncate500 (s : String) : String := String.mk (s.data.take 500)

/-! ### Classification workflow (`handle_support_query`, rag_agent.py
lines 253-357) -/

/-- Oracle environment for one `process_query` call: presence of an MCP
session, the transport outcome of each tool the workflows may call, the
generation backend, and the timing oracles of the (at most three) logged
calls. -/
structure AgentEnv where
  sessionOk : Bool
  classify : Except String (List String)
  template : Except String (List String)
  knowledge : Except String (List String)
  search : Except String (List String)
  llm : LLMEnv
  m1 : CallMeta
  m2 : CallMeta
  m3 : CallMeta

/-- The catch-all result of the classification workflow (rag_agent.py
lines 350-357). -/
def supportErrorDict (e : String) (wl : List String) : PyVal :=
  .dict (pyDictOf
    [("response", .str "I encountered an error. Please try again."),
     ("error", .str e),
     ("workflow", .str "classification"),
     ("workflow_log", .list (pyListOf (wl.map PyVal.str)))])

/-- The fixed JSON-output instruction block appended to the support
prompt (rag_agent.py lines 310-317). -/
def jsonInstructionBlock : String :=
  "\n\nRespond with JSON containing:\n- \"response\": your answer (2-3 sentences)\n- \"action_needed\": \"none\", \"create_ticket\", or \"escalate\"\n- \"confidence\": 0-1\n\nJSON Response:"

/-- The default instructional prompt used when no template is available
(rag_agent.py lines 302-307). -/
def defaultSupportPrompt (q : String) (knowledge : PyVal) : String :=
  "Please help with this customer question: " ++ q ++
    "\n\nBased on this documentation:\n" ++ pyStrTop knowledge ++
    "\n\nProvide a helpful response."

/-- Classification workflow `OmniTechAgent.handle_support_query` (rag_agent.py lines 253-357):
classify, template lookup, knowledge retrieval, generation, parsing,
sentinel substitution and metadata annotation, with every Python
exception inside the `try` routed to the catch-all handler. -/
def handle_support_query (env : AgentEnv) (q : String) (log0 : List ToolCallRecord) :
    List ToolCallRecord × PyVal :=
  let wl1 := ["[1/4] Classifying query..."]
  match call_tool env.sessionOk log0 "classify_query"
      (.dict (pyDictOf [("user_query", .str q)])) env.classify env.m1 with
  | .error e => (log0, supportErrorDict e wl1)
  | .ok (log1, classification) =>
  match pyContains "error" classification with
  | .error e => (log1, supportErrorDict e wl1)
  | .ok true =>
    match pySubscript classification "error" with
    | .error e => (log1, supportErrorDict e wl1)
    | .ok ev =>
      (log1, .dict (pyDictOf [("error", .str ("Classification failed: " ++ pyStrTop ev))]))
  | .ok false =>
  match pyGet classification "suggested_query" (.str "general_support") with
  | .error e => (log1, supportErrorDict e wl1)
  | .ok category =>
  match pyGet classification "confidence" (.intv 0) with
  | .error e => (log1, supportErrorDict e wl1)
  | .ok confidence =>
  match fmt2f confidence with
  | .error e => (log1, supportErrorDict e wl1)
  | .ok confStr =>
  let wl2 := wl1 ++ ["[Result] Category: " ++ pyStrTop category ++
    " (confidence: " ++ confStr ++ ")", "[2/4] Getting template..."]
  match call_tool env.sessionOk log1 "get_query_template"
      (.dict (pyDictOf [("query_name", category)])) env.template env.m2 with
  | .error e => (log1, supportErrorDict e wl2)
  | .ok (log2, template_info) =>
  match pyContains "error" template_info with
  | .error e => (log2, supportErrorDict e wl2)
  | .ok errIn =>
  match (if errIn then Except.ok (PyVal.str "") else pyGet template_info "template" (.str "")) with
  | .error e => (log2, supportErrorDict e wl2)
  | .ok template =>
  match pyGet template_info "description" category with
  | .error e => (log2, supportErrorDict e wl2)
  | .ok description =>
  let wl3 := wl2 ++ ["[3/4] Retrieving knowledge for " ++ pyStrTop category ++ "..."]
  match call_tool env.sessionOk log2 "get_knowledge_for_query"
      (.dict (pyDictOf [("category", category), ("query", .str q), ("max_results", .intv 3)]))
      env.knowledge env.m3 with
  | .error e => (log2, supportErrorDict e wl3)
  | .ok (log3, knowledge_info) =>
  match pyGet knowledge_info "knowledge" (.str "No documentation found.") with
  | .error e => (log3, supportErrorDict e wl3)
  | .ok knowledge =>
  match pyGet knowledge_info "sources" (.list .nil) with
  | .error e => (log3, supportErrorDict e wl3)
  | .ok sources =>
  match pyLen sources with
  | .error e => (log3, supportErrorDict e wl3)
  | .ok nSources =>
  let wl4 := wl3 ++ ["[INFO] Retrieved " ++ toString nSources ++ " source(s)",
    "[4/4] Generating response..."]
  match (if pyTruthy template then pyFormatQK template q knowledge
         else Except.ok (defaultSupportPrompt q knowledge)) with
  | .error e => (log3, supportErrorDict e wl4)
  | .ok formatted_prompt =>
  let full_prompt := formatted_prompt ++ jsonInstructionBlock
  let llm_response := query_llm env.llm full_prompt
  let result0 :=
    match jsonLoads llm_response with
    | some v => v
    | Option.none =>
      .dict (pyDictOf [("response", .str (truncate500 llm_response)),
        ("action_needed", .str "none"), ("confidence", .float 6 1)])
  match pyGet result0 "response" .null with
  | .error e => (log3, supportErrorDict e wl4)
  | .ok resp0 =>
  match (if pyEqStr resp0 "KNOWLEDGE_BASE_ONLY" then
           match pySlice knowledge 400 with
           | .error e => Except.error e
           | .ok kcut =>
             match pySetItem result0 "response"
                 (.str ("Based on our " ++ pyStrTop description ++ ":\n\n" ++
                   pyStrTop kcut ++ "...")) with
             | .error e => Except.error e
             | .ok r1 => pySetItem r1 "confidence" (.float 8 1)
         else Except.ok result0) with
  | .error e => (log3, supportErrorDict e wl4)
  | .ok result1 =>
  match pySetItem result1 "classification"
      (.dict (pyDictOf [("category", category), ("confidence", confidence),
        ("description", description)])) with
  | .error e => (log3, supportErrorDict e wl4)
  | .ok result2 =>
  match pySetItem result2 "workflow" (.str "classification") with
  | .error e => (log3, supportErrorDict e wl4)
  | .ok result3 =>
  -- `result["workflow_log"]` stores a reference to the list that the final
  -- `workflow_log.append("[SUCCESS] ...")` still mutates, so the stored
  -- log contains the success line.
  let wl5 := wl4 ++ ["[SUCCESS] Response generated"]
  match pySetItem result3 "workflow_log" (.list (pyListOf (wl5.map PyVal.str))) with
  | .error e => (log3, supportErrorDict e wl4)
  | .ok result4 =>
  match pySetItem result4 "sources" sources with
  | .error e => (log3, supportErrorDict e wl4)
  | .ok result5 =>
  match pySetItem result5 "llm_prompt" (.str full_prompt) with
  | .error e => (log3, supportErrorDict e wl4)
  | .ok result6 => (log3, result6)

/-! ### Direct-RAG workflow (`handle_exploratory_query`, rag_agent.py
lines 361-422) -/

/-- The catch-all result of the direct-RAG workflow (rag_agent.py lines
416-422). -/
def exploratoryErrorDict (e : String) : PyVal :=
  .dict (pyDictOf
    [("response", .str "Search error. Please try again."),
     ("error", .str e),
     ("workflow", .str "direct_rag")])

/-- Iterate `matches[:3]` (list slice; a string slices to its characters;
other types raise as in Python). -/
def sliceIter3 (v : PyVal) : Except String (List PyVal) :=
  match v with
  | .list xs => .ok ((toListV xs).take 3)
  | .str s => .ok ((s.data.take 3).map (fun c => .str (String.mk [c])))
  | _ => .error "TypeError: object is not subscriptable"

/-- Comprehension `[m[key] for m in ms]`. -/
def mapSubscript (ms : List PyVal) (k : String) : Except String (List PyVal) :=
  match ms with
  | [] => .ok []
  | m :: t =>
    match pySubscript m k with
    | .error e => .error e
    | .ok v =>
      match mapSubscript t k with
      | .error e => .error e
      | .ok vs => .ok (v :: vs)

/-- Equality used by `set` deduplication on hashable values (Python
numeric cross-type equality included). -/
def pyEqHash (a b : PyVal) : Bool :=
  match a, b with
  | .str s, .str t => s == t
  | .null, .null => true
  | .intv n, .intv m => n == m
  | .intv n, .float m s => n * (10 : ℤ) ^ s == m
  | .float m s, .intv n => n * (10 : ℤ) ^ s == m
  | .float m s, .float m' s' => m * (10 : ℤ) ^ s' == m' * (10 : ℤ) ^ s
  | .boolv b, .boolv c => b == c
  | .boolv b, .intv n => (if b then (1 : ℤ) else 0) == n
  | .intv n, .boolv b => (if b then (1 : ℤ) else 0) == n
  | _, _ => false

/-- Keep-first deduplication.  Python's `list(set(...))` has arbitrary
(hash-based) order; the claims only depend on the element set, and the
model fixes first-occurrence order. -/
def dedupKeepFirst : List PyVal → List PyVal
  | [] => []
  | x :: t => x :: (dedupKeepFirst t).filter (fun y => !pyEqHash x y)

/-- Python `list(set(m["source"] for m in ms))`: extraction, hashability check,
deduplication. -/
def dedupSources (ms : List PyVal) : Except String (List PyVal) :=
  match mapSubscript ms "source" with
  | .error e => .error e
  | .ok vs =>
    if vs.any (fun v => match v with | .list _ => true | .dict _ => true | _ => false) then
      .error "TypeError: unhashable type"
    else .ok (dedupKeepFirst vs)

/-- Python `sep.join(parts)`: every element must be a string. -/
def joinStrs (sep : String) (parts : List PyVal) : Except String String :=
  match collect parts with
  | .error e => .error e
  | .ok ss => .ok (String.intercalate sep ss)
where
  collect : List PyVal → Except String (List String)
    | [] => .ok []
    | .str s :: t =>
      match collect t with
      | .error e => .error e
      | .ok ss => .ok (s :: ss)
    | _ :: _ => .error "TypeError: sequence item is not str"

/-- The direct-RAG prompt (rag_agent.py lines 385-395). -/
def directRagPrompt (knowledge : String) (q : String) : String :=
  "Based on this documentation:\n" ++ knowledge ++ "\n\nAnswer this question: " ++ q ++
    "\n\nRespond with JSON containing:\n- \"response\": your answer (2-3 sentences)\n- \"action_needed\": \"none\"\n- \"confidence\": 0-1\n\nJSON Response:"

/-- Direct-RAG workflow `OmniTechAgent.handle_exploratory_query` (rag_agent.py lines 361-422). -/
def handle_exploratory_query (env : AgentEnv) (q : String) (log0 : List ToolCallRecord) :
    List ToolCallRecord × PyVal :=
  match call_tool env.sessionOk log0 "search_knowledge"
      (.dict (pyDictOf [("query", .str q), ("max_results", .intv 5)])) env.search env.m1 with
  | .error e => (log0, exploratoryErrorDict e)
  | .ok (log1, search_result) =>
  match pyGet search_result "matches" (.list .nil) with
  | .error e => (log1, exploratoryErrorDict e)
  | .ok matchesV =>
  if !pyTruthy matchesV then
    (log1, .dict (pyDictOf
      [("response", .str ("I couldn" ++ aposS ++ "t find relevant information. Please try rephrasing.")),
       ("workflow", .str "direct_rag"),
       ("sources", .list .nil)]))
  else
  match sliceIter3 matchesV with
  | .error e => (log1, exploratoryErrorDict e)
  | .ok m3 =>
  match mapSubscript m3 "content" with
  | .error e => (log1, exploratoryErrorDict e)
  | .ok knowledge_parts =>
  match dedupSources m3 with
  | .error e => (log1, exploratoryErrorDict e)
  | .ok sources =>
  match joinStrs "\n\n---\n\n" knowledge_parts with
  | .error e => (log1, exploratoryErrorDict e)
  | .ok knowledge =>
  let prompt := directRagPrompt knowledge q
  let llm_response := query_llm env.llm prompt
  let result0 :=
    match jsonLoads llm_response with
    | some v => v
    | Option.none =>
      .dict (pyDictOf [("response", .str (truncate500 llm_response)),
        ("action_needed", .str "none"), ("confidence", .float 6 1)])
  match pyGet result0 "response" .null with
  | .error e => (log1, exploratoryErrorDict e)
  | .ok resp0 =>
  match (if pyEqStr resp0 "KNOWLEDGE_BASE_ONLY" then
           pySetItem result0 "response"
             (.str ("Here" ++ aposS ++ "s what I found:\n\n" ++
               String.mk (knowledge.data.take 400) ++ "..."))
         else Except.ok result0) with
  | .error e => (log1, exploratoryErrorDict e)
  | .ok result1 =>
  match pySetItem result1 "workflow" (.str "direct_rag") with
  | .error e => (log1, exploratoryErrorDict e)
  | .ok result2 =>
  match pySetItem result2 "sources" (.list (pyListOf sources)) with
  | .error e => (log1, exploratoryErrorDict e)
  | .ok result3 =>
  match pySetItem result3 "llm_prompt" (.str prompt) with
  | .error e => (log1, exploratoryErrorDict e)
  | .ok result4 => (log1, result4)

/-- Router `OmniTechAgent.process_query` (rag_agent.py lines 426-438): the
binary routing rule. -/
def process_query (env : AgentEnv) (q : String) (log0 : List ToolCallRecord) :
    List ToolCallRecord × PyVal :=
  if is_support_query q then handle_support_query env q log0
  else handle_exploratory_query env q log0

/-! ### Response parser of the minimal agent
(`SyncAgent.query`, rag_agent_minimal.py lines 312-341): the four-stage
fallback chain recovering a structured result from generated text. -/

/-- Python regex `\s` (ASCII whitespace classes). -/
def pyWsChar (c : Char) : Bool :=
  c == ' ' || c == '\t' || c == '\n' || c == '\r' || c == Char.ofNat 12 || c == Char.ofNat 11

/-- Lazy scan of `` \{.*?\}\s*``` `` after the opening brace: the first
closing brace whose whitespace-skipped tail starts a fence ends the
group (shorter extents are tried first, exactly as the lazy quantifier
does). -/
def scanLazy (accRev : List Char) : List Char → Option (List Char)
  | [] => Option.none
  | c :: t =>
    if c == rbrace && isPrefixL "```".data (t.dropWhile pyWsChar) then
      some (lbrace :: (accRev.reverse ++ [rbrace]))
    else scanLazy (c :: accRev) t

/-- Match of `` ```(?:json)?\s*(\{.*?\})\s*``` `` anchored at the current
position, returning capture group 1.  The optional `json`, the
whitespace runs and the lazy body are each deterministic here because
their follow sets are disjoint from what they consume. -/
def fencedAt (cs : List Char) : Option (List Char) :=
  if isPrefixL "```".data cs then
    let r0 := cs.drop 3
    let r1 := if isPrefixL "json".data r0 then r0.drop 4 else r0
    match r1.dropWhile pyWsChar with
    | c :: body => if c == lbrace then scanLazy [] body else Option.none
    | [] => Option.none
  else Option.none

/-- Search of the fenced-block pattern: leftmost match wins. -/
def fencedSearch : List Char → Option (List Char)
  | [] => Option.none
  | c :: t =>
    match fencedAt (c :: t) with
    | some g => some g
    | Option.none => fencedSearch t

/-- Match of `\{[^\{\}]*"response"[^\{\}]*\}` anchored at the current
position: a brace-free segment containing the quoted key, closed by a
brace. -/
def respAt (cs : List Char) : Option (List Char) :=
  match cs with
  | c :: t =>
    if c == lbrace then
      let seg := t.takeWhile (fun d => d != lbrace && d != rbrace)
      match t.drop seg.length with
      | r :: _ =>
        if r == rbrace && containsSub seg ('"' :: "response".data ++ ['"']) then
          some (lbrace :: seg ++ [rbrace])
        else Option.none
      | [] => Option.none
    else Option.none
  | [] => Option.none

/-- Search of the raw-object pattern: leftmost match wins. -/
def responseSearch : List Char → Option (List Char)
  | [] => Option.none
  | c :: t =>
    match respAt (c :: t) with
    | some g => some g
    | Option.none => responseSearch t

/-- Substitution removing fence markers (the minimal agent's cleanup
regex): delete each triple-backtick marker, consuming a following
`json` when present. -/
def stripFences (fuel : ℕ) (cs : List Char) : List Char :=
  match fuel with
  | 0 => cs
  | fuel + 1 =>
    match cs with
    | [] => []
    | c :: t =>
      if isPrefixL "```".data (c :: t) then
        let r := t.drop 2
        if isPrefixL "json".data r then stripFences fuel (r.drop 4)
        else stripFences fuel r
      else c :: stripFences fuel t

/-- Python `str.strip()`. -/
def pyStrip (s : String) : String :=
  String.mk (((s.data.dropWhile pyWsChar).reverse.dropWhile pyWsChar).reverse)

/-- Stage 2 of the fallback chain: extract a fenced code block marked
`json` and parse its contents. -/
def stage2Extract (llm : String) : Option PyVal :=
  match fencedSearch llm.data with
  | some g => jsonLoads (String.mk g)
  | Option.none => Option.none

/-- Stage 3: regex-extract the smallest flat object containing a
`"response"` key and parse it. -/
def stage3Extract (llm : String) : Option PyVal :=
  match responseSearch llm.data with
  | some g => jsonLoads (String.mk g)
  | Option.none => Option.none

/-- Stage 4 preprocessing: strip fence markers and surrounding
whitespace. -/
def cleanResponse (llm : String) : String :=
  pyStrip (String.mk (stripFences (llm.data.length + 1) llm.data))

/-- The minimal agent's response parser (rag_agent_minimal.py lines
312-341): whole-text parse, fenced block, raw object, then the terminal
truncate-and-wrap fallback. -/
def parse_llm_response (llm : String) : PyVal :=
  match jsonLoads llm with
  | some r => r
  | Option.none =>
    match stage2Extract llm with
    | some r => r
    | Option.none =>
      match stage3Extract llm with
      | some r => r
      | Option.none =>
        .dict (pyDictOf [("response", .str (truncate500 (cleanResponse llm))),
          ("action_needed", .str "none"), ("confidence", .float 6 1)])

/-! ### Conversation history (rag_agent_minimal.py lines 62-65 and
346-353) -/

/-- One completed exchange. -/
structure ConversationTurn where
  user : String
  assistant : String
deriving DecidableEq

/-- Append a turn, then trim to the last `max_history = 3` exchanges. -/
def history_append (h : List ConversationTurn) (t : ConversationTurn) :
    List ConversationTurn :=
  let l := h ++ [t]
  if 3 < l.length then lastN 3 l else l

/-! ### Auxiliary definitions used by the claim statements -/

/-- The spec's routing rule, stated from its words: a query is a support
query iff the lowercased text contains a keyword of some category or
matches a help-seeking pattern. -/
def routing_spec (q : String) : Prop :=
  (∃ ck ∈ SUPPORT_KEYWORDS, ∃ kw ∈ ck.2, containsSub (lowerL q.data) kw.data = true) ∨
    (∃ p ∈ support_patterns, p (lowerL q.data) = true)

/-- One tool call whose transport completes (the interesting case for the
call-log invariant: only completed calls are logged). -/
structure OkCall where
  tool : String
  args : PyVal
  content : List String
  meta : CallMeta

/-- The record `call_tool` logs for a completed call. -/
def recordOfCall (c : OkCall) : ToolCallRecord :=
  mkToolRecord c.tool c.args c.meta (unwrap_mcp_result c.content)

/-- Run a sequence of completed calls through `call_tool` with a live
session, tracking only the evolving call log. -/
def runCalls (calls : List OkCall) : List ToolCallRecord :=
  calls.foldl
    (fun log c =>
      match call_tool true log c.tool c.args (.ok c.content) c.meta with
      | .ok p => p.1
      | .error _ => log)
    []

/-- Whether an `Except` computation completed without raising. -/
def exceptOk {ε α : Type} : Except ε α → Bool
  | .ok _ => true
  | .error _ => false

/-- The spec's fenced-block scenario input:
a ```json fence around `\x7b"response":"ok","action_needed":"none","confidence":0.9\x7d`. -/
def FENCED_EXAMPLE : String :=
  "```json\n\x7b\"response\":\"ok\",\"action_needed\":\"none\",\"confidence\":0.9\x7d\n```"

/-- The call log after one completed `call_tool` (used to phrase
`call_tool`'s behaviour as an equation). -/
def callLogAfter (log : List ToolCallRecord) (tool : String) (args : PyVal)
    (meta : CallMeta) (outcome : Except String (List String)) : List ToolCallRecord :=
  match outcome with
  | .error _ => log
  | .ok contents => logAppend log (mkToolRecord tool args meta (unwrap_mcp_result contents))

/-! ### General lemmas about the bounded buffers and dict updates -/

theorem lastN_of_length_le {α : Type} {n : ℕ} {l : List α} (h : l.length ≤ n) :
    lastN n l = l := by
  simp [lastN, Nat.sub_eq_zero_of_le h]

theorem length_lastN_le {α : Type} (n : ℕ) (l : List α) : (lastN n l).length ≤ n := by
  simp [lastN]
  omega

theorem lastN_append_lastN {α : Type} (n : ℕ) (xs : List α) (a : α) :
    lastN n (lastN n xs ++ [a]) = lastN n (xs ++ [a]) := by
  rcases Nat.eq_zero_or_pos n with hn | hn
  · subst hn
    simp [lastN]
  rcases le_or_lt xs.length n with h | h
  · rw [lastN_of_length_le h]
  · unfold lastN
    have h1 : (xs.drop (xs.length - n)).length = n := by
      rw [List.length_drop]
      omega
    have h2 : 1 ≤ (xs.drop (xs.length - n)).length := by
      rw [List.length_drop]
      omega
    have h3 : (xs.length - n) + 1 ≤ xs.length := by omega
    rw [List.length_append, List.length_append, h1]
    simp only [List.length_cons, List.length_nil]
    have e1 : n + (0 + 1) - n = 1 := by omega
    have e2 : xs.length + (0 + 1) - n = (xs.length - n) + 1 := by omega
    rw [e1, e2, List.drop_append_of_le_length h2, List.drop_append_of_le_length h3,
      List.drop_drop]

theorem foldl_capped {α : Type} (f : List α → α → List α) (n : ℕ)
    (hf : ∀ h a, f h a = lastN n (h ++ [a])) :
    ∀ (xs ys : List α), xs.foldl f (lastN n ys) = lastN n (ys ++ xs)
  | [], ys => by simp
  | a :: t, ys => by
    rw [List.foldl_cons, hf, lastN_append_lastN, foldl_capped f n hf t (ys ++ [a])]
    simp

theorem foldl_capped_nil {α : Type} (f : List α → α → List α) (n : ℕ)
    (hf : ∀ h a, f h a = lastN n (h ++ [a])) (xs : List α) :
    xs.foldl f [] = lastN n xs := by
  have := foldl_capped f n hf xs []
  simpa [lastN] using this

theorem history_append_eq (h : List ConversationTurn) (t : ConversationTurn) :
    history_append h t = lastN 3 (h ++ [t]) := by
  simp only [history_append]
  split
  · rfl
  · rw [lastN_of_length_le (by omega)]

theorem logAppend_eq (log : List ToolCallRecord) (r : ToolCallRecord) :
    logAppend log r = lastN 20 (log ++ [r]) := by
  simp only [logAppend]
  split
  · rfl
  · rw [lastN_of_length_le (by omega)]

theorem PyDict.lookup_set :
    ∀ (d : PyDict) (k k' : String) (v : PyVal),
      (d.set k v).lookup k' = if k == k' then some v else d.lookup k'
  | .nil, k, k', v => by
    simp only [PyDict.set, PyDict.lookup]
  | .cons k0 w t, k, k', v => by
    simp only [PyDict.set]
    by_cases h0 : k0 = k
    · simp only [h0, beq_self_eq_true, if_true, PyDict.lookup]
      by_cases h1 : k = k' <;> simp [h1]
    · have hne : (k0 == k) = false := beq_eq_false_iff_ne.mpr h0
      simp only [hne, Bool.false_eq_true, if_false, PyDict.lookup,
        PyDict.lookup_set t k k' v]
      by_cases h1 : k0 = k'
      · subst h1
        have : (k == k0) = false := beq_eq_false_iff_ne.mpr (fun hh => h0 hh.symm)
        simp [this]
      · have h1' : (k0 == k') = false := beq_eq_false_iff_ne.mpr h1
        simp [h1']

theorem resultField_setItem {r r' : PyVal} {k : String} {v : PyVal}
    (h : pySetItem r k v = .ok r') (k' : String) :
    resultField r' k' = if k == k' then some v else resultField r k' := by
  cases r <;> simp only [pySetItem] at h
  all_goals try exact Except.noConfusion h
  next d =>
    injection h with h'
    subst h'
    simp [resultField, PyDict.lookup_set]

theorem call_tool_with_session (log : List ToolCallRecord) (tool : String) (args : PyVal)
    (outcome : Except String (List String)) (meta : CallMeta) :
    call_tool true log tool args outcome meta =
      .ok (callLogAfter log tool args meta outcome, toolParsed outcome) := by
  cases outcome <;> rfl

end OmniTech

namespace OmniTech

/-! ### Claim theorems -/

set_option maxRecDepth 100000

/-- C2 counterexample: invoked before a session is established,
`call_tool` raises (`raise Exception("MCP session not initialized")` sits
outside the `try`), rather than returning an `error` payload. -/
theorem call_tool_raises_before_session :
    call_tool false [] "classify_query" (.dict .nil) (.ok ["\x7b\x7d"]) ⟨"t0", 1, 3⟩ =
      .error "MCP session not initialized" := rfl

/-- C2 (amended): once a session is established, `call_tool` never raises
for any tool name, arguments and transport outcome; a transport or
protocol failure is returned as a structured `error` mapping carrying
the failure message. -/
theorem call_tool_never_raises_with_session (log : List ToolCallRecord) (tool : String)
    (args : PyVal) (outcome : Except String (List String)) (meta : CallMeta) :
    exceptOk (call_tool true log tool args outcome meta) = true ∧
      (∀ e, outcome = .error e →
        call_tool true log tool args outcome meta =
          .ok (log, .dict (.cons "error" (.str e) .nil))) := by
  constructor
  · cases outcome <;> rfl
  · intro e he
    subst he
    rfl

/-- C2 witness: a concrete failing transport call returns the structured
error payload without raising. -/
theorem call_tool_never_raises_with_session_witness :
    exceptOk (call_tool true [] "classify_query" (.dict .nil) (.error "boom") ⟨"t0", 1, 3⟩) =
        true ∧
      call_tool true [] "classify_query" (.dict .nil) (.error "boom") ⟨"t0", 1, 3⟩ =
        .ok ([], .dict (.cons "error" (.str "boom") .nil)) :=
  ⟨(call_tool_never_raises_with_session [] "classify_query" (.dict .nil) (.error "boom")
      ⟨"t0", 1, 3⟩).1,
   (call_tool_never_raises_with_session [] "classify_query" (.dict .nil) (.error "boom")
      ⟨"t0", 1, 3⟩).2 "boom" rfl⟩

/-- C4: on a fenced `json` code block wrapping
`\x7b"response":"ok","action_needed":"none","confidence":0.9\x7d`, stage 1
(whole-text parse) fails and the parser extracts the inner object
exactly via fenced-block extraction, so the parsed confidence is 0.9. -/
theorem fenced_json_block_parsed_exactly :
    jsonLoads FENCED_EXAMPLE = Option.none ∧
      parse_llm_response FENCED_EXAMPLE =
        .dict (pyDictOf [("response", .str "ok"), ("action_needed", .str "none"),
          ("confidence", .float 9 1)]) ∧
      resultField (parse_llm_response FENCED_EXAMPLE) "confidence" = some (.float 9 1) :=
  ⟨rfl, rfl, rfl⟩

/-- C5 counterexample: on a generic (non-warming) backend error the
full agent's generation client returns the `KNOWLEDGE_BASE_ONLY`
sentinel payload with confidence 0.7 — not a generic apology with
confidence 0.3 as claimed. -/
theorem query_llm_generic_error_not_apology :
    query_llm ⟨true, .error "500 Internal Server Error"⟩ "p" = KNOWLEDGE_BASE_ONLY_JSON ∧
      jsonLoads KNOWLEDGE_BASE_ONLY_JSON =
        some (.dict (pyDictOf [("response", .str "KNOWLEDGE_BASE_ONLY"),
          ("action_needed", .str "none"), ("confidence", .float 7 1)])) :=
  ⟨rfl, rfl⟩

/-- C5 (amended): neither generation client raises; every failure mode
maps to a fixed well-formed JSON string.  The full agent returns the
sentinel payload (confidence 0.7) both without a credential and on
non-warming backend errors, and a warming message (confidence 0.5) on
503/loading errors; the minimal agent returns a fixed non-sentinel
message (confidence 0.5) without a credential, its warming message
(confidence 0.5), and the generic apology (confidence 0.3) on other
errors. -/
theorem generation_client_failure_modes (prompt : String) (b : Except String String) :
    query_llm ⟨false, b⟩ prompt = KNOWLEDGE_BASE_ONLY_JSON ∧
      (∀ e, llmErrorIsWarming e = true → query_llm ⟨true, .error e⟩ prompt = WARMING_JSON) ∧
      (∀ e, llmErrorIsWarming e = false →
        query_llm ⟨true, .error e⟩ prompt = KNOWLEDGE_BASE_ONLY_JSON) ∧
      query_llm_minimal ⟨false, b⟩ prompt = MIN_NO_TOKEN_JSON ∧
      (∀ e, llmErrorIsWarming e = true →
        query_llm_minimal ⟨true, .error e⟩ prompt = MIN_WARMING_JSON) ∧
      (∀ e, llmErrorIsWarming e = false →
        query_llm_minimal ⟨true, .error e⟩ prompt = MIN_APOLOGY_JSON) ∧
      jsonLoads WARMING_JSON =
        some (.dict (pyDictOf
          [("response", .str "The AI model is warming up. Please try again in a moment."),
           ("action_needed", .str "none"), ("confidence", .float 5 1)])) ∧
      jsonLoads MIN_APOLOGY_JSON =
        some (.dict (pyDictOf
          [("response", .str "I encountered an error generating a response. Please try again."),
           ("action_needed", .str "none"), ("confidence", .float 3 1)])) ∧
      (jsonLoads MIN_NO_TOKEN_JSON).isSome = true ∧
      (jsonLoads MIN_WARMING_JSON).isSome = true := by
  refine ⟨rfl, ?_, ?_, rfl, ?_, ?_, rfl, rfl, rfl, rfl⟩
  · intro e he
    simp [query_llm, llmErrorIsWarming] at he ⊢
    rcases he with h | h <;> simp [h]
  · intro e he
    simp [query_llm, llmErrorIsWarming] at he ⊢
    simp [he.1, he.2]
  · intro e he
    simp [query_llm_minimal, llmErrorIsWarming] at he ⊢
    rcases he with h | h <;> simp [h]
  · intro e he
    simp [query_llm_minimal, llmErrorIsWarming] at he ⊢
    simp [he.1, he.2]

/-- C5 witness: the amended failure-mode map, instantiated at a warming
error and at a generic error for both clients. -/
theorem generation_client_failure_modes_witness :
    query_llm ⟨true, .error "503 Service Unavailable"⟩ "p" = WARMING_JSON ∧
      query_llm ⟨true, .error "connection refused"⟩ "p" = KNOWLEDGE_BASE_ONLY_JSON ∧
      query_llm_minimal ⟨true, .error "503 Service Unavailable"⟩ "p" = MIN_WARMING_JSON ∧
      query_llm_minimal ⟨true, .error "connection refused"⟩ "p" = MIN_APOLOGY_JSON :=
  ⟨((generation_client_failure_modes "p" (.ok "")).2.1 "503 Service Unavailable" rfl),
   ((generation_client_failure_modes "p" (.ok "")).2.2.1 "connection refused" rfl),
   ((generation_client_failure_modes "p" (.ok "")).2.2.2.2.1 "503 Service Unavailable" rfl),
   ((generation_client_failure_modes "p" (.ok "")).2.2.2.2.2.1 "connection refused" rfl)⟩

/-- C6 counterexample: a call whose transport raises is answered with an
`error` payload but appends nothing to the call log, so the invoker does
not append a record after every call. -/
theorem failed_tool_call_not_logged :
    call_tool true [] "classify_query" (.dict .nil) (.error "transport failure") ⟨"t0", 1, 3⟩ =
      .ok ([], .dict (.cons "error" (.str "transport failure") .nil)) := rfl

/-- C6 (amended): `call_tool` appends a `ToolCallRecord` after every call
whose transport completes; the log never exceeds 20 entries, and after
more than 20 logged calls it holds exactly the most recent 20 records,
oldest first. -/
theorem call_log_capped_fifo (calls : List OkCall) :
    (runCalls calls).length ≤ 20 ∧
      runCalls calls = lastN 20 (calls.map recordOfCall) ∧
      (20 < calls.length →
        runCalls calls = (calls.map recordOfCall).drop (calls.length - 20)) := by
  have hmain : runCalls calls = lastN 20 (calls.map recordOfCall) := by
    have hfold : runCalls calls = (calls.map recordOfCall).foldl logAppend [] := by
      unfold runCalls
      rw [List.foldl_map]
      rfl
    rw [hfold, foldl_capped_nil logAppend 20 logAppend_eq]
  refine ⟨?_, hmain, ?_⟩
  · rw [hmain]
    exact length_lastN_le 20 (calls.map recordOfCall)
  · intro _
    rw [hmain]
    simp [lastN]

/-- C6 witness: after 21 completed calls the log is exactly the 20 most
recent records. -/
theorem call_log_capped_fifo_witness :
    runCalls (List.replicate 21 ⟨"classify_query", .dict .nil, ["\x7b\x7d"], ⟨"t0", 1, 3⟩⟩) =
      List.replicate 20 (recordOfCall ⟨"classify_query", .dict .nil, ["\x7b\x7d"], ⟨"t0", 1, 3⟩⟩) := by
  have h := (call_log_capped_fifo
    (List.replicate 21 ⟨"classify_query", .dict .nil, ["\x7b\x7d"], ⟨"t0", 1, 3⟩⟩)).2.2
    (by simp)
  simpa using h

/-- C7: whenever the three extraction stages all fail, the terminal
fallback of the response parser succeeds and returns a result whose
`response` is the cleaned text truncated to at most 500 characters, with
`action_needed = "none"` and `confidence = 0.6`. -/
theorem parser_terminal_fallback_conforms (s : String)
    (h1 : jsonLoads s = Option.none) (h2 : stage2Extract s = Option.none)
    (h3 : stage3Extract s = Option.none) :
    parse_llm_response s =
        .dict (pyDictOf [("response", .str (truncate500 (cleanResponse s))),
          ("action_needed", .str "none"), ("confidence", .float 6 1)]) ∧
      (truncate500 (cleanResponse s)).length ≤ 500 ∧
      resultField (parse_llm_response s) "action_needed" = some (.str "none") ∧
      resultField (parse_llm_response s) "confidence" = some (.float 6 1) := by
  have hp : parse_llm_response s =
      .dict (pyDictOf [("response", .str (truncate500 (cleanResponse s))),
        ("action_needed", .str "none"), ("confidence", .float 6 1)]) := by
    simp only [parse_llm_response, h1, h2, h3]
  refine ⟨hp, ?_, ?_, ?_⟩
  · have he : (truncate500 (cleanResponse s)).length =
        ((cleanResponse s).data.take 500).length := rfl
    rw [he, List.length_take]
    exact Nat.min_le_left _ _
  · rw [hp]
    rfl
  · rw [hp]
    rfl

/-- C7 witness: plain prose hits the terminal fallback and yields the
conforming wrapped result. -/
theorem parser_terminal_fallback_conforms_witness :
    parse_llm_response "This is plain prose, not JSON." =
        .dict (pyDictOf [("response", .str (truncate500 (cleanResponse "This is plain prose, not JSON."))),
          ("action_needed", .str "none"), ("confidence", .float 6 1)]) ∧
      (truncate500 (cleanResponse "This is plain prose, not JSON.")).length ≤ 500 :=
  ⟨(parser_terminal_fallback_conforms "This is plain prose, not JSON." rfl rfl rfl).1,
   (parser_terminal_fallback_conforms "This is plain prose, not JSON." rfl rfl rfl).2.1⟩

/-- C9: the conversation history never exceeds 3 turns, every sequence of
appends leaves exactly the most recent turns in order, and once more
than 3 turns have been appended the history is exactly the most recent 3
(FIFO eviction of the oldest). -/
theorem conversation_history_capped_fifo (ts : List ConversationTurn) :
    (ts.foldl history_append []).length ≤ 3 ∧
      ts.foldl history_append [] = lastN 3 ts ∧
      (3 < ts.length → ts.foldl history_append [] = ts.drop (ts.length - 3)) := by
  have hmain : ts.foldl history_append [] = lastN 3 ts :=
    foldl_capped_nil history_append 3 history_append_eq ts
  refine ⟨?_, hmain, ?_⟩
  · rw [hmain]
    exact length_lastN_le 3 ts
  · intro _
    rw [hmain]
    rfl

/-- C9 witness: appending a 4th turn evicts the oldest and keeps the
remaining three in order. -/
theorem conversation_history_capped_fifo_witness :
    ([⟨"u1", "a1"⟩, ⟨"u2", "a2"⟩, ⟨"u3", "a3"⟩, ⟨"u4", "a4"⟩] :
        List ConversationTurn).foldl history_append [] =
      [⟨"u2", "a2"⟩, ⟨"u3", "a3"⟩, ⟨"u4", "a4"⟩] := by
  have h := (conversation_history_capped_fifo
    [⟨"u1", "a1"⟩, ⟨"u2", "a2"⟩, ⟨"u3", "a3"⟩, ⟨"u4", "a4"⟩]).2.2 (by norm_num)
  simpa using h

end OmniTech

namespace OmniTech

/-- Every exit path of the direct-RAG workflow (no-match early return,
catch-all handler, and annotated success) carries
`workflow = "direct_rag"`, for every environment. -/
theorem exploratory_always_direct_rag (env : AgentEnv) (q : String)
    (log0 : List ToolCallRecord) :
    resultField (handle_exploratory_query env q log0).2 "workflow" =
      some (.str "direct_rag") := by
  unfold handle_exploratory_query
  repeat' split
  all_goals try rfl
  dsimp only
  repeat' split
  all_goals try rfl
  rename_i x2 r2 h2 x1 r3 h3 x0 r4 h4
  dsimp only
  rw [resultField_setItem h4 "workflow", resultField_setItem h3 "workflow",
    resultField_setItem h2 "workflow"]
  simp

/-- C3: the router sends a query to the classification workflow iff its
lowercased text contains a support keyword or matches a help-seeking
pattern; "How do I reset my password?" routes to the classification
workflow, and "Tell me about OmniTech" matches nothing and is handled by
the direct-RAG workflow, whose result has `workflow = "direct_rag"` in
every environment. -/
theorem routing_rule :
    (∀ q, is_support_query q = true ↔ routing_spec q) ∧
      is_support_query "How do I reset my password?" = true ∧
      is_support_query "Tell me about OmniTech" = false ∧
      (∀ env q log0, process_query env q log0 =
        if is_support_query q then handle_support_query env q log0
        else handle_exploratory_query env q log0) ∧
      (∀ env log0,
        process_query env "Tell me about OmniTech" log0 =
          handle_exploratory_query env "Tell me about OmniTech" log0 ∧
        resultField (process_query env "Tell me about OmniTech" log0).2 "workflow" =
          some (.str "direct_rag")) := by
  refine ⟨?_, rfl, rfl, fun _ _ _ => rfl, ?_⟩
  · intro q
    simp only [is_support_query, routing_spec, Bool.or_eq_true, List.any_eq_true]
  · intro env log0
    have hroute : process_query env "Tell me about OmniTech" log0 =
        handle_exploratory_query env "Tell me about OmniTech" log0 := rfl
    exact ⟨hroute, by rw [hroute]; exact exploratory_always_direct_rag env _ log0⟩

end OmniTech

namespace OmniTech

/-- C10: in the direct-RAG workflow, when the parsed response equals the
`KNOWLEDGE_BASE_ONLY` sentinel, only the response text is replaced (with
the truncated retrieved knowledge); the confidence of the parsed result
is carried through unchanged. -/
theorem direct_rag_sentinel_keeps_confidence
    (env : AgentEnv) (q : String) (log0 : List ToolCallRecord)
    (sd : PyDict) (ms : PyList) (kparts srcs : List PyVal) (kstr : String) (d : PyDict)
    (h0 : env.sessionOk = true)
    (h1 : toolParsed env.search = .dict sd)
    (h2 : (sd.lookup "matches").getD (.list .nil) = .list ms)
    (h3 : ms.isEmpty = false)
    (h4 : mapSubscript ((toListV ms).take 3) "content" = .ok kparts)
    (h5 : dedupSources ((toListV ms).take 3) = .ok srcs)
    (h6 : joinStrs "\n\n---\n\n" kparts = .ok kstr)
    (h7 : jsonLoads (query_llm env.llm "") = some (.dict d))
    (h8 : d.lookup "response" = some (.str "KNOWLEDGE_BASE_ONLY")) :
    resultField (handle_exploratory_query env q log0).2 "response" =
        some (.str ("Here" ++ aposS ++ "s what I found:\n\n" ++
          String.mk (kstr.data.take 400) ++ "...")) ∧
      resultField (handle_exploratory_query env q log0).2 "confidence" =
        d.lookup "confidence" := by
  simp only [query_llm] at h7
  unfold handle_exploratory_query
  simp only [h0, call_tool_with_session, h1, pyGet, h2, pyTruthy, h3, sliceIter3, h4, h5, h6,
    query_llm, h7, Bool.not_false, Bool.not_true, Option.getD_some, Bool.false_eq_true,
    Bool.true_eq_false, if_false, if_true, h8, pyEqStr, String.reduceBEq, pySetItem,
    resultField, PyDict.lookup_set]
  exact ⟨trivial, trivial⟩

/-- C10 witness: a concrete no-token run through the direct-RAG workflow
replaces the sentinel response and leaves the parsed confidence 0.7 in
place (in particular it is not raised to 0.8). -/
theorem direct_rag_sentinel_keeps_confidence_witness :
    resultField (handle_exploratory_query
        ⟨true, .ok [], .ok [], .ok [],
          .ok ["\x7b\"matches\": [\x7b\"content\": \"docA\", \"source\": \"s1\"\x7d]\x7d"],
          ⟨false, .ok ""⟩, ⟨"t0", 1, 3⟩, ⟨"t0", 1, 3⟩, ⟨"t0", 1, 3⟩⟩
        "Tell me about OmniTech" []).2 "confidence" = some (.float 7 1) := by
  have h := direct_rag_sentinel_keeps_confidence
    ⟨true, .ok [], .ok [], .ok [],
      .ok ["\x7b\"matches\": [\x7b\"content\": \"docA\", \"source\": \"s1\"\x7d]\x7d"],
      ⟨false, .ok ""⟩, ⟨"t0", 1, 3⟩, ⟨"t0", 1, 3⟩, ⟨"t0", 1, 3⟩⟩
    "Tell me about OmniTech" []
    (.cons "matches"
      (.list (pyListOf [.dict (.cons "content" (.str "docA")
        (.cons "source" (.str "s1") .nil))])) .nil)
    (pyListOf [.dict (.cons "content" (.str "docA") (.cons "source" (.str "s1") .nil))])
    [.str "docA"] [.str "s1"] "docA"
    (.cons "response" (.str "KNOWLEDGE_BASE_ONLY")
      (.cons "action_needed" (.str "none") (.cons "confidence" (.float 7 1) .nil)))
    rfl rfl rfl rfl rfl rfl rfl rfl rfl
  exact h.2.trans rfl

end OmniTech

namespace OmniTech

/-- C8: in the classification workflow, whenever the parsed response
equals the `KNOWLEDGE_BASE_ONLY` sentinel, the workflow substitutes the
templated fallback built from the truncated retrieved knowledge and sets
the result's confidence to the fixed default 0.8. -/
theorem support_sentinel_substitution
    (env : AgentEnv) (q : String) (log0 : List ToolCallRecord)
    (c t kd d : PyDict) (confStr : String) (ns : ℕ) (kstr : String)
    (h0 : env.sessionOk = true)
    (h1 : toolParsed env.classify = .dict c)
    (h2 : c.hasKey "error" = false)
    (h3 : fmt2f ((c.lookup "confidence").getD (.intv 0)) = .ok confStr)
    (h4 : toolParsed env.template = .dict t)
    (h5 : (if t.hasKey "error" then PyVal.str "" else (t.lookup "template").getD (.str "")) =
      .str "")
    (h6 : toolParsed env.knowledge = .dict kd)
    (h7 : pyLen ((kd.lookup "sources").getD (.list .nil)) = .ok ns)
    (h8 : (kd.lookup "knowledge").getD (.str "No documentation found.") = .str kstr)
    (h9 : jsonLoads (query_llm env.llm "") = some (.dict d))
    (h10 : d.lookup "response" = some (.str "KNOWLEDGE_BASE_ONLY")) :
    resultField (handle_support_query env q log0).2 "response" =
        some (.str ("Based on our " ++
          pyStrTop ((t.lookup "description").getD
            ((c.lookup "suggested_query").getD (.str "general_support"))) ++
          ":\n\n" ++ String.mk (kstr.data.take 400) ++ "...")) ∧
      resultField (handle_support_query env q log0).2 "confidence" = some (.float 8 1) := by
  simp only [query_llm] at h9
  have hpt : pyTruthy (PyVal.str "") = false := rfl
  unfold handle_support_query
  simp only [h0, call_tool_with_session, h1, pyContains, h2, pyGet, h3, h4, ← apply_ite Except.ok,
    h5, h6, h7, h8, hpt, query_llm, h9, Bool.not_false, Bool.not_true, Option.getD_some,
    Bool.false_eq_true, Bool.true_eq_false, if_false, if_true, h10, pyEqStr, String.reduceBEq,
    pySlice, pyStrTop, pySetItem, resultField, PyDict.lookup_set]
  exact ⟨trivial, trivial⟩

/-- C8 witness: a concrete no-token run of the classification workflow
substitutes the knowledge-based fallback and sets confidence 0.8. -/
theorem support_sentinel_substitution_witness :
    resultField (handle_support_query
        ⟨true, .ok ["\x7b\"confidence\": 0.9\x7d"], .error "tfail", .error "kfail", .ok [],
          ⟨false, .ok ""⟩, ⟨"t0", 1, 3⟩, ⟨"t0", 1, 3⟩, ⟨"t0", 1, 3⟩⟩
        "How do I reset my password?" []).2 "confidence" = some (.float 8 1) :=
  (support_sentinel_substitution
    ⟨true, .ok ["\x7b\"confidence\": 0.9\x7d"], .error "tfail", .error "kfail", .ok [],
      ⟨false, .ok ""⟩, ⟨"t0", 1, 3⟩, ⟨"t0", 1, 3⟩, ⟨"t0", 1, 3⟩⟩
    "How do I reset my password?" []
    (.cons "confidence" (.float 9 1) .nil)
    (.cons "error" (.str "tfail") .nil)
    (.cons "error" (.str "kfail") .nil)
    (.cons "response" (.str "KNOWLEDGE_BASE_ONLY")
      (.cons "action_needed" (.str "none") (.cons "confidence" (.float 7 1) .nil)))
    "0.90" 0 "No documentation found."
    rfl rfl rfl rfl rfl rfl rfl rfl rfl rfl rfl).2

end OmniTech

namespace OmniTech

/-- C1 counterexample: when the classification tool call fails, the
classification workflow's early return is a bare `\x7b"error": ...\x7d`
mapping containing none of the three mandatory fields `response`,
`action_needed`, `confidence`. -/
theorem classification_failure_returns_bare_error :
    (handle_support_query
        ⟨true, .ok ["\x7b\"error\": \"boom\"\x7d"], .ok [], .ok [], .ok [],
          ⟨false, .ok ""⟩, ⟨"t0", 1, 3⟩, ⟨"t0", 1, 3⟩, ⟨"t0", 1, 3⟩⟩
        "How do I reset my password?" []).2 =
        .dict (.cons "error" (.str "Classification failed: boom") .nil) ∧
      resultField (handle_support_query
        ⟨true, .ok ["\x7b\"error\": \"boom\"\x7d"], .ok [], .ok [], .ok [],
          ⟨false, .ok ""⟩, ⟨"t0", 1, 3⟩, ⟨"t0", 1, 3⟩, ⟨"t0", 1, 3⟩⟩
        "How do I reset my password?" []).2 "response" = Option.none ∧
      resultField (handle_support_query
        ⟨true, .ok ["\x7b\"error\": \"boom\"\x7d"], .ok [], .ok [], .ok [],
          ⟨false, .ok ""⟩, ⟨"t0", 1, 3⟩, ⟨"t0", 1, 3⟩, ⟨"t0", 1, 3⟩⟩
        "How do I reset my password?" []).2 "action_needed" = Option.none ∧
      resultField (handle_support_query
        ⟨true, .ok ["\x7b\"error\": \"boom\"\x7d"], .ok [], .ok [], .ok [],
          ⟨false, .ok ""⟩, ⟨"t0", 1, 3⟩, ⟨"t0", 1, 3⟩, ⟨"t0", 1, 3⟩⟩
        "How do I reset my password?" []).2 "confidence" = Option.none :=
  ⟨rfl, rfl, rfl, rfl⟩

/-- C1 (amended): on the classification workflow's parse-fallback path —
session live, classification successful (an object without an `error`
key and a formattable confidence), degraded template and well-shaped
knowledge lookups, generation output not valid JSON — the returned
result contains all three mandatory fields `response`, `action_needed`
and `confidence`; but the classification-failure early return carries
only `error`, and the catch-all handlers return `response`/`error`
without `action_needed`/`confidence`. -/
theorem support_fallback_has_mandatory_fields
    (env : AgentEnv) (q : String) (log0 : List ToolCallRecord)
    (c t kd : PyDict) (confStr : String) (ns : ℕ) (kstr : String)
    (h0 : env.sessionOk = true)
    (h1 : toolParsed env.classify = .dict c)
    (h2 : c.hasKey "error" = false)
    (h3 : fmt2f ((c.lookup "confidence").getD (.intv 0)) = .ok confStr)
    (h4 : toolParsed env.template = .dict t)
    (h5 : (if t.hasKey "error" then PyVal.str "" else (t.lookup "template").getD (.str "")) =
      .str "")
    (h6 : toolParsed env.knowledge = .dict kd)
    (h7 : pyLen ((kd.lookup "sources").getD (.list .nil)) = .ok ns)
    (h8 : (kd.lookup "knowledge").getD (.str "No documentation found.") = .str kstr)
    (h9 : jsonLoads (query_llm env.llm "") = Option.none) :
    (resultField (handle_support_query env q log0).2 "response").isSome = true ∧
      (resultField (handle_support_query env q log0).2 "action_needed").isSome = true ∧
      (resultField (handle_support_query env q log0).2 "confidence").isSome = true := by
  have hq : ∀ p, query_llm env.llm p = query_llm env.llm "" := fun _ => rfl
  have hpt : pyTruthy (PyVal.str "") = false := rfl
  unfold handle_support_query
  simp only [h0, call_tool_with_session, h1, pyContains, h2, pyGet, h3, h4, ← apply_ite Except.ok,
    h5, h6, h7, h8, hpt, hq, h9, Bool.not_false, Bool.not_true, Option.getD_some,
    Bool.false_eq_true, Bool.true_eq_false, if_false, if_true, pyDictOf, PyDict.lookup,
    String.reduceBEq, Option.getD_none]
  by_cases hsent :
      pyEqStr (.str (truncate500 (query_llm env.llm ""))) "KNOWLEDGE_BASE_ONLY" = true
  · simp only [hsent, if_true, pySlice, pyStrTop, pySetItem, resultField, PyDict.lookup_set,
      String.reduceBEq, if_false, if_true, Bool.false_eq_true, Bool.true_eq_false,
      Option.isSome_some]
    simp [PyDict.lookup]
  · simp only [Bool.not_eq_true] at hsent
    simp only [hsent, Bool.false_eq_true, if_false, pySetItem, resultField, PyDict.lookup_set,
      String.reduceBEq, if_true, Option.isSome_some]
    simp [PyDict.lookup]

/-- C1 witness: a concrete run with plain-text generation output returns
a result carrying all three mandatory fields. -/
theorem support_fallback_has_mandatory_fields_witness :
    (resultField (handle_support_query
        ⟨true, .ok ["\x7b\"confidence\": 0.9\x7d"], .error "tfail", .error "kfail", .ok [],
          ⟨true, .ok "Plain text answer"⟩, ⟨"t0", 1, 3⟩, ⟨"t0", 1, 3⟩, ⟨"t0", 1, 3⟩⟩
        "How do I reset my password?" []).2 "response").isSome = true ∧
      (resultField (handle_support_query
        ⟨true, .ok ["\x7b\"confidence\": 0.9\x7d"], .error "tfail", .error "kfail", .ok [],
          ⟨true, .ok "Plain text answer"⟩, ⟨"t0", 1, 3⟩, ⟨"t0", 1, 3⟩, ⟨"t0", 1, 3⟩⟩
        "How do I reset my password?" []).2 "action_needed").isSome = true ∧
      (resultField (handle_support_query
        ⟨true, .ok ["\x7b\"confidence\": 0.9\x7d"], .error "tfail", .error "kfail", .ok [],
          ⟨true, .ok "Plain text answer"⟩, ⟨"t0", 1, 3⟩, ⟨"t0", 1, 3⟩, ⟨"t0", 1, 3⟩⟩
        "How do I reset my password?" []).2 "confidence").isSome = true :=
  support_fallback_has_mandatory_fields
    ⟨true, .ok ["\x7b\"confidence\": 0.9\x7d"], .error "tfail", .error "kfail", .ok [],
      ⟨true, .ok "Plain text answer"⟩, ⟨"t0", 1, 3⟩, ⟨"t0", 1, 3⟩, ⟨"t0", 1, 3⟩⟩
    "How do I reset my password?" []
    (.cons "confidence" (.float 9 1) .nil)
    (.cons "error" (.str "tfail") .nil)
    (.cons "error" (.str "kfail") .nil)
    "0.90" 0 "No documentation found."
    rfl rfl rfl rfl rfl rfl rfl rfl rfl rfl

end OmniTech
